import Mathlib

/-!
Verification of the VulkanTextureDepth frame-pipeline and GPU resource
lifecycle manager.  The definitions below are a shallow embedding of the
C++ sources (devices.cpp, graphics.cpp, memory.cpp): Vulkan enum values
keep their numeric codes, machine integers are modelled as Nat (with an
explicit cast through 2^32 where the code casts int to uint32_t), and
C++ functions that can throw are modelled as Except-valued functions.
-/

namespace VulkanTextureDepth

/-- MAX_FRAMES_IN_FLIGHT, fixed to 2 in include/graphics.hpp. -/
def MAX_FRAMES_IN_FLIGHT : Nat := 2

/-- Numeric code of VK_FORMAT_B8G8R8A8_SRGB. -/
def VK_FORMAT_B8G8R8A8_SRGB : Nat := 50

/-- Numeric code of VK_COLOR_SPACE_SRGB_NONLINEAR_KHR. -/
def VK_COLOR_SPACE_SRGB_NONLINEAR_KHR : Nat := 0

/-- Numeric code of VK_PRESENT_MODE_MAILBOX_KHR. -/
def VK_PRESENT_MODE_MAILBOX_KHR : Nat := 1

/-- Numeric code of VK_PRESENT_MODE_FIFO_KHR. -/
def VK_PRESENT_MODE_FIFO_KHR : Nat := 2

/-- std::numeric_limits of uint32_t max, the sentinel extent width. -/
def UINT32_MAX : Nat := 4294967295

/-- A VkExtent2D value: a pair of uint32 width and height. -/
structure VkExtent2D where
  width : Nat
  height : Nat
deriving DecidableEq, Repr

/-- A VkSurfaceFormatKHR value: a format code and a color-space code. -/
structure VkSurfaceFormatKHR where
  format : Nat
  colorSpace : Nat
deriving DecidableEq, Repr

/-- The fields of VkSurfaceCapabilitiesKHR that the SwapChain code reads. -/
structure VkSurfaceCapabilitiesKHR where
  minImageCount : Nat
  maxImageCount : Nat
  currentExtent : VkExtent2D
  minImageExtent : VkExtent2D
  maxImageExtent : VkExtent2D
deriving DecidableEq, Repr

/-- The loop condition of SwapChain::chooseSwapSurfaceFormat: the entry has
the preferred format VK_FORMAT_B8G8R8A8_SRGB with color space
VK_COLOR_SPACE_SRGB_NONLINEAR_KHR. -/
def isPreferredFormat (f : VkSurfaceFormatKHR) : Bool :=
  f.format = VK_FORMAT_B8G8R8A8_SRGB && f.colorSpace = VK_COLOR_SPACE_SRGB_NONLINEAR_KHR

/-- The search loop inside SwapChain::chooseSwapSurfaceFormat: return the
first entry satisfying the preferred-format test, if any. -/
def findPreferred : List VkSurfaceFormatKHR → Option VkSurfaceFormatKHR
  | [] => none
  | f :: rest => if isPreferredFormat f then some f else findPreferred rest

/-- SwapChain::chooseSwapSurfaceFormat (devices.cpp): loop over the available
formats returning the first preferred entry; after the loop fall back to
availableFormats[0].  Indexing an empty vector is undefined behavior in the
C++, modelled here as none. -/
def chooseSwapSurfaceFormat (availableFormats : List VkSurfaceFormatKHR) :
    Option VkSurfaceFormatKHR :=
  match findPreferred availableFormats with
  | some f => some f
  | none => availableFormats.head?

/-- SwapChain::chooseSwapPresentMode (devices.cpp): loop over the available
present modes returning VK_PRESENT_MODE_MAILBOX_KHR when found; after the
loop fall back to VK_PRESENT_MODE_FIFO_KHR. -/
def chooseSwapPresentMode : List Nat → Nat
  | [] => VK_PRESENT_MODE_FIFO_KHR
  | m :: rest =>
    if m = VK_PRESENT_MODE_MAILBOX_KHR then m else chooseSwapPresentMode rest

/-- std::clamp on uint32 values: lo when v is below lo, hi when v is above
hi, otherwise v itself. -/
def stdClamp (v lo hi : Nat) : Nat :=
  if v < lo then lo else if hi < v then hi else v

/-- static_cast of a C int to uint32_t, i.e. reduction modulo 2^32 with a
nonnegative representative. -/
def castIntToUInt32 (x : Int) : Nat := (x % (4294967296 : Int)).toNat

/-- SwapChain::chooseSwapExtent (devices.cpp).  The framebuffer size that
glfwGetFramebufferSize reports is passed in as the two Int arguments.  When
the current extent width is not the UINT32_MAX sentinel the current extent
is returned unchanged; otherwise the framebuffer size is cast to uint32 and
clamped component-wise into the min and max image extents. -/
def chooseSwapExtent (capabilities : VkSurfaceCapabilitiesKHR)
    (fbWidth fbHeight : Int) : VkExtent2D :=
  if capabilities.currentExtent.width ≠ UINT32_MAX then
    capabilities.currentExtent
  else
    { width := stdClamp (castIntToUInt32 fbWidth)
        capabilities.minImageExtent.width capabilities.maxImageExtent.width,
      height := stdClamp (castIntToUInt32 fbHeight)
        capabilities.minImageExtent.height capabilities.maxImageExtent.height }

/-- The SwapChain member state touched by cleanup and recreation
(devices.cpp).  Handles are modelled as Nat; the two destroyed lists record
every handle passed to vkDestroyImageView and vkDestroySwapchainKHR. -/
structure SwapChainState where
  swapChain : Nat
  swapChainImages : List Nat
  swapChainImageViews : List Nat
  swapChainImageFormat : Nat
  swapChainExtent : VkExtent2D
  destroyedImageViews : List Nat
  destroyedSwapChains : List Nat
deriving DecidableEq, Repr

/-- SwapChain::cleanupSwapChain (devices.cpp): destroy every element of
swapChainImageViews with vkDestroyImageView, then destroy the swap chain
with vkDestroySwapchainKHR.  The member vectors themselves are not
cleared. -/
def cleanupSwapChain (st : SwapChainState) : SwapChainState :=
  { st with
    destroyedImageViews := st.destroyedImageViews ++ st.swapChainImageViews,
    destroyedSwapChains := st.destroyedSwapChains ++ [st.swapChain] }

/-- The SwapChainSupportDetails record filled in by querySwapChainSupport. -/
structure SwapChainSupportDetails where
  capabilities : VkSurfaceCapabilitiesKHR
  formats : List VkSurfaceFormatKHR
  presentModes : List Nat
deriving DecidableEq, Repr

/-- SwapChain::createSwapChain (devices.cpp): query support, choose format,
present mode and extent, create the new swap chain and fetch its images.
The fresh handles vkCreateSwapchainKHR and vkGetSwapchainImagesKHR would
return are passed in as newChain and newImages.  The function destroys
nothing; it only overwrites the members.  Indexing an empty format list is
undefined behavior in the C++ and surfaces here as an error value. -/
def createSwapChain (st : SwapChainState) (support : SwapChainSupportDetails)
    (fbWidth fbHeight : Int) (newChain : Nat) (newImages : List Nat) :
    Except String SwapChainState :=
  match chooseSwapSurfaceFormat support.formats with
  | none => .error "undefined behavior: availableFormats is empty"
  | some surfaceFormat =>
    let extent := chooseSwapExtent support.capabilities fbWidth fbHeight
    .ok { st with
          swapChain := newChain,
          swapChainImages := newImages,
          swapChainImageFormat := surfaceFormat.format,
          swapChainExtent := extent }

/-- SwapChain::createImageViews (devices.cpp): resize swapChainImageViews to
the image count and fill it with one freshly created view per swap-chain
image.  The fresh handles vkCreateImageView would return are passed in as
freshViews. -/
def createImageViews (st : SwapChainState) (freshViews : List Nat) :
    SwapChainState :=
  { st with swapChainImageViews := freshViews.take st.swapChainImages.length }

/-- SwapChain::recreateSwapChain (devices.cpp, lines 373 to 377): the body
calls createSwapChain and then createImageViews, and nothing else.  In
particular it does not call cleanupSwapChain first. -/
def recreateSwapChain (st : SwapChainState) (support : SwapChainSupportDetails)
    (fbWidth fbHeight : Int) (newChain : Nat) (newImages : List Nat)
    (freshViews : List Nat) : Except String SwapChainState :=
  match createSwapChain st support fbWidth fbHeight newChain newImages with
  | .error e => .error e
  | .ok st1 => .ok (createImageViews st1 freshViews)

/-- Outcome oracle for the AllocatorManager (memory.cpp): the n-th call to
createBuffer, mapMemory or copyBuffer succeeds iff the corresponding field
returns true at n.  This stands for the underlying VMA and driver state the
repository code has no control over. -/
structure AllocEnv where
  createOk : Nat → Bool
  mapOk : Nat → Bool
  copyOk : Nat → Bool

/-- Observable allocator state: per-operation call counters used to index
the oracle, and the list of currently live buffer handles (a handle is the
index of the createBuffer call that produced it). -/
structure AllocState where
  nCreate : Nat
  nMap : Nat
  nCopy : Nat
  live : List Nat
deriving DecidableEq, Repr

/-- The allocator state before any call. -/
def initAllocState : AllocState := { nCreate := 0, nMap := 0, nCopy := 0, live := [] }

/-- AllocatorManager::createBuffer (memory.cpp): throws
std::runtime_error when vmaCreateBuffer fails, otherwise hands back the new
buffer handle. -/
def allocCreateBuffer (env : AllocEnv) (s : AllocState) :
    AllocState × Except String Nat :=
  if env.createOk s.nCreate then
    ({ s with nCreate := s.nCreate + 1, live := s.live ++ [s.nCreate] },
     .ok s.nCreate)
  else
    ({ s with nCreate := s.nCreate + 1 }, .error "Failed to create buffer!")

/-- AllocatorManager::mapMemory (memory.cpp): throws std::runtime_error
when vmaMapMemory fails. -/
def allocMapMemory (env : AllocEnv) (s : AllocState) :
    AllocState × Except String Unit :=
  if env.mapOk s.nMap then
    ({ s with nMap := s.nMap + 1 }, .ok ())
  else
    ({ s with nMap := s.nMap + 1 }, .error "Failed to map memory!")

/-- AllocatorManager::copyBuffer (memory.cpp): throws on submission
failure. -/
def allocCopyBuffer (env : AllocEnv) (s : AllocState) :
    AllocState × Except String Unit :=
  if env.copyOk s.nCopy then
    ({ s with nCopy := s.nCopy + 1 }, .ok ())
  else
    ({ s with nCopy := s.nCopy + 1 }, .error "Failed to copy buffer!")

/-- AllocatorManager::destroyBuffer (memory.cpp): removes a live handle. -/
def allocDestroyBuffer (s : AllocState) (h : Nat) : AllocState :=
  { s with live := s.live.erase h }

/-- BufferManager::createVertexBuffer (graphics.cpp, lines 703 to 753).
Every step that can throw is wrapped in try/catch in the C++; a caught
failure prints to std::cerr, cleans up the buffers created so far and
returns false.  The function result is the final allocator state, the
returned bool, and the created vertex-buffer handle when all steps
succeeded. -/
def createVertexBuffer (env : AllocEnv) (s : AllocState) :
    AllocState × Bool × Option Nat :=
  match allocCreateBuffer env s with
  | (s1, .error _) => (s1, false, none)
  | (s1, .ok stagingBuffer) =>
    match allocMapMemory env s1 with
    | (s2, .error _) => (allocDestroyBuffer s2 stagingBuffer, false, none)
    | (s2, .ok _) =>
      match allocCreateBuffer env s2 with
      | (s3, .error _) => (allocDestroyBuffer s3 stagingBuffer, false, none)
      | (s3, .ok vertexBuffer) =>
        match allocCopyBuffer env s3 with
        | (s4, .error _) =>
          (allocDestroyBuffer (allocDestroyBuffer s4 stagingBuffer) vertexBuffer,
           false, none)
        | (s4, .ok _) =>
          (allocDestroyBuffer s4 stagingBuffer, true, some vertexBuffer)

/-- BufferManager::createIndexBuffer (graphics.cpp): identical try/catch
structure to createVertexBuffer, producing the index buffer. -/
def createIndexBuffer (env : AllocEnv) (s : AllocState) :
    AllocState × Bool × Option Nat :=
  match allocCreateBuffer env s with
  | (s1, .error _) => (s1, false, none)
  | (s1, .ok stagingBuffer) =>
    match allocMapMemory env s1 with
    | (s2, .error _) => (allocDestroyBuffer s2 stagingBuffer, false, none)
    | (s2, .ok _) =>
      match allocCreateBuffer env s2 with
      | (s3, .error _) => (allocDestroyBuffer s3 stagingBuffer, false, none)
      | (s3, .ok indexBuffer) =>
        match allocCopyBuffer env s3 with
        | (s4, .error _) =>
          (allocDestroyBuffer (allocDestroyBuffer s4 stagingBuffer) indexBuffer,
           false, none)
        | (s4, .ok _) =>
          (allocDestroyBuffer s4 stagingBuffer, true, some indexBuffer)

/-- The loop body of BufferManager::createUniformBuffers (graphics.cpp):
for each of the MAX_FRAMES_IN_FLIGHT slots create one uniform buffer and
map it; a caught failure destroys the buffers created so far and returns
false. -/
def createUniformBuffersAux (env : AllocEnv) :
    Nat → AllocState → List Nat → AllocState × Bool × List Nat
  | 0, s, acc => (s, true, acc)
  | n + 1, s, acc =>
    match allocCreateBuffer env s with
    | (s1, .error _) => (acc.foldl allocDestroyBuffer s1, false, [])
    | (s1, .ok buf) =>
      match allocMapMemory env s1 with
      | (s2, .error _) => ((acc ++ [buf]).foldl allocDestroyBuffer s2, false, [])
      | (s2, .ok _) => createUniformBuffersAux env n s2 (acc ++ [buf])

/-- BufferManager::createUniformBuffers (graphics.cpp). -/
def createUniformBuffers (env : AllocEnv) (s : AllocState) :
    AllocState × Bool × List Nat :=
  createUniformBuffersAux env MAX_FRAMES_IN_FLIGHT s []

/-- The parts of the constructed BufferManager that the claims observe:
the final allocator state, the bool each create helper returned, and the
buffer handles that were stored. -/
structure BufferManagerState where
  alloc : AllocState
  vertexOk : Bool
  indexOk : Bool
  uniformOk : Bool
  vertexBuffer : Option Nat
  indexBuffer : Option Nat
  uniformBuffers : List Nat
deriving DecidableEq, Repr

/-- The BufferManager constructor (graphics.cpp, lines 619 to 637): after
resizing the member vectors it calls createVertexBuffer, createIndexBuffer
and createUniformBuffers in sequence.  Each call appears as a bare
statement in the C++, so the returned bools are discarded; since every
failure inside the helpers is caught there, the constructor body contains
no operation that can propagate an exception, which the Except result type
records by always being ok. -/
def bufferManagerCtor (env : AllocEnv) : Except String BufferManagerState :=
  let r1 := createVertexBuffer env initAllocState
  let r2 := createIndexBuffer env r1.1
  let r3 := createUniformBuffers env r2.1
  .ok { alloc := r3.1,
        vertexOk := r1.2.1, indexOk := r2.2.1, uniformOk := r3.2.1,
        vertexBuffer := r1.2.2, indexBuffer := r2.2.2,
        uniformBuffers := r3.2.2 }

/-- The UniformBufferObject struct (model, view and projection matrices);
its byte content is opaque to the claims, so it is modelled as an opaque
payload compared only for equality. -/
structure UniformBufferObject where
  payload : Nat
deriving DecidableEq, Repr

/-- BufferManager::updateUniformBuffer (graphics.cpp, lines 665 to 679).
uniformBuffersMapped is the vector of persistently mapped pointers; a none
entry is a null pointer and a some entry holds the value currently in that
mapped region.  The C++ first throws std::out_of_range when currentFrame
is not below MAX_FRAMES_IN_FLIGHT, then throws std::runtime_error when the
mapped pointer is null, and otherwise memcpy-s exactly the ubo struct into
the mapped region of that slot. -/
def updateUniformBuffer (mapped : List (Option UniformBufferObject))
    (currentFrame : Nat) (ubo : UniformBufferObject) :
    Except String (List (Option UniformBufferObject)) :=
  if MAX_FRAMES_IN_FLIGHT ≤ currentFrame then
    .error "Frame index out of bounds."
  else
    match mapped[currentFrame]? with
    | none => .error "vector index out of bounds"
    | some none =>
      .error ("Failed to map uniform buffer for frame " ++ toString currentFrame)
    | some (some _) => .ok (mapped.set currentFrame (some ubo))

/-- Marker for a constructed std::runtime_error object.  In
GraphicsPipeline::getFrameBuffer the two guard statements construct such an
object without a throw keyword, so the temporary is discarded and control
falls through. -/
def mkRuntimeError (msg : String) : String := msg

/-- GraphicsPipeline::getFrameBuffer (graphics.cpp, lines 1179 to 1185).
Both guards read `std::runtime_error("...");` with no throw, so they have
no effect; the function then evaluates framebuffers[frameIndex] and returns
it.  An out-of-bounds access is undefined behavior in the C++ and is
modelled as returning none; the ok wrapper records that no exception leaves
the function. -/
def getFrameBuffer (framebuffers : List Nat) (frameIndex : Nat) :
    Except String (Option Nat) :=
  let discardedEmptyGuard :=
    if framebuffers.isEmpty then
      some (mkRuntimeError "Frame buffers vector is not populated!")
    else none
  let discardedBoundsGuard :=
    if frameIndex > framebuffers.length then
      some (mkRuntimeError "Frame index is out of bounds!")
    else none
  let _ := discardedEmptyGuard
  let _ := discardedBoundsGuard
  .ok framebuffers[frameIndex]?

/-- GraphicsPipeline::getFrameBuffers (graphics.cpp, lines 1172 to 1176):
the empty-vector guard likewise constructs a std::runtime_error without
throwing it, then the vector is returned. -/
def getFrameBuffers (framebuffers : List Nat) : Except String (List Nat) :=
  let discardedEmptyGuard :=
    if framebuffers.isEmpty then
      some (mkRuntimeError "Frame buffers vector is not populated!")
    else none
  let _ := discardedEmptyGuard
  .ok framebuffers

/-- Numeric code of VK_IMAGE_LAYOUT_UNDEFINED. -/
def VK_IMAGE_LAYOUT_UNDEFINED : Nat := 0

/-- Numeric code of VK_IMAGE_LAYOUT_SHADER_READ_ONLY_OPTIMAL. -/
def VK_IMAGE_LAYOUT_SHADER_READ_ONLY_OPTIMAL : Nat := 5

/-- Numeric code of VK_IMAGE_LAYOUT_TRANSFER_DST_OPTIMAL. -/
def VK_IMAGE_LAYOUT_TRANSFER_DST_OPTIMAL : Nat := 7

/-- The observable operations TextureManager::createTextureImage performs,
in program order.  hostVisible records the VMA memory usage of the staging
buffer (VMA_MEMORY_USAGE_CPU_TO_GPU) and deviceLocal that of the
destination image (VMA_MEMORY_USAGE_GPU_ONLY). -/
inductive TexEvent where
  | createStagingBuffer (size : Nat) (hostVisible : Bool)
  | mapMemory
  | memcpyPixels (size : Nat)
  | unmapMemory
  | freePixels
  | createImage (w h : Nat) (deviceLocal : Bool)
  | transition (oldLayout newLayout : Nat)
  | copyBufferToImage (w h : Nat)
  | destroyStagingBuffer
deriving DecidableEq, Repr

/-- TextureManager::transitionImageLayout (graphics.cpp, lines 469 to 503):
only the UNDEFINED to TRANSFER_DST and TRANSFER_DST to SHADER_READ_ONLY
transitions are supported; any other pair throws std::invalid_argument.
On the supported pairs it records a single-use command buffer holding the
pipeline barrier, modelled by the emitted transition event. -/
def transitionImageLayout (oldLayout newLayout : Nat) : Except String TexEvent :=
  if oldLayout = VK_IMAGE_LAYOUT_UNDEFINED ∧
      newLayout = VK_IMAGE_LAYOUT_TRANSFER_DST_OPTIMAL then
    .ok (TexEvent.transition oldLayout newLayout)
  else if oldLayout = VK_IMAGE_LAYOUT_TRANSFER_DST_OPTIMAL ∧
      newLayout = VK_IMAGE_LAYOUT_SHADER_READ_ONLY_OPTIMAL then
    .ok (TexEvent.transition oldLayout newLayout)
  else
    .error "unsupported layout transition!"

/-- The TextureManager member state read and written by
createTextureImage. -/
structure TextureState where
  textureImage : Option Nat
  textureImageMemory : Option Nat
  imagePath : String
deriving DecidableEq, Repr

/-- TextureManager::createTextureImage (graphics.cpp, lines 336 to 401).
stbResult is the outcome of stbi_load (none when the file cannot be
decoded, otherwise the texture width and height); mapOk is the outcome of
vmaMapMemory on the staging buffer.  On the success path the function
returns the updated member state and the ordered list of operations it
performed. -/
def createTextureImage (st : TextureState) (stbResult : Option (Nat × Nat))
    (mapOk : Bool) : Except String (TextureState × List TexEvent) :=
  if st.textureImage.isSome && st.textureImageMemory.isSome then
    .ok (st, [])
  else if st.imagePath = "" then
    .error "TextureManager: imagePath is empty, please provide a valid texture file path."
  else
    match stbResult with
    | none => .error "Failed to load texture image!"
    | some (texWidth, texHeight) =>
      let imageSize := texWidth * texHeight * 4
      if mapOk = false then
        .error "TextureManager::createTextureImage: Failed to map memory for staging buffer."
      else
        match transitionImageLayout VK_IMAGE_LAYOUT_UNDEFINED
                VK_IMAGE_LAYOUT_TRANSFER_DST_OPTIMAL,
              transitionImageLayout VK_IMAGE_LAYOUT_TRANSFER_DST_OPTIMAL
                VK_IMAGE_LAYOUT_SHADER_READ_ONLY_OPTIMAL with
        | .error e, _ => .error e
        | _, .error e => .error e
        | .ok t1, .ok t2 =>
          .ok ({ st with textureImage := some 1, textureImageMemory := some 1 },
               [TexEvent.createStagingBuffer imageSize true,
                TexEvent.mapMemory,
                TexEvent.memcpyPixels imageSize,
                TexEvent.unmapMemory,
                TexEvent.freePixels,
                TexEvent.createImage texWidth texHeight true,
                t1,
                TexEvent.copyBufferToImage texWidth texHeight,
                t2,
                TexEvent.destroyStagingBuffer])

/-- Numeric code of VK_DESCRIPTOR_TYPE_COMBINED_IMAGE_SAMPLER. -/
def VK_DESCRIPTOR_TYPE_COMBINED_IMAGE_SAMPLER : Nat := 1

/-- Numeric code of VK_DESCRIPTOR_TYPE_UNIFORM_BUFFER. -/
def VK_DESCRIPTOR_TYPE_UNIFORM_BUFFER : Nat := 6

/-- Numeric code of VK_SHADER_STAGE_VERTEX_BIT. -/
def VK_SHADER_STAGE_VERTEX_BIT : Nat := 1

/-- Numeric code of VK_SHADER_STAGE_FRAGMENT_BIT. -/
def VK_SHADER_STAGE_FRAGMENT_BIT : Nat := 16

/-- A VkDescriptorSetLayoutBinding as filled in by
DescriptorManager::createDescriptorSetLayout. -/
structure VkDescriptorSetLayoutBinding where
  binding : Nat
  descriptorCount : Nat
  descriptorType : Nat
  stageFlags : Nat
deriving DecidableEq, Repr

/-- DescriptorManager::createDescriptorSetLayout (graphics.cpp, lines 978
to 1002): the bindings array passed to vkCreateDescriptorSetLayout. -/
def descriptorSetLayoutBindings : List VkDescriptorSetLayoutBinding :=
  [{ binding := 0, descriptorCount := 1,
     descriptorType := VK_DESCRIPTOR_TYPE_UNIFORM_BUFFER,
     stageFlags := VK_SHADER_STAGE_VERTEX_BIT },
   { binding := 1, descriptorCount := 1,
     descriptorType := VK_DESCRIPTOR_TYPE_COMBINED_IMAGE_SAMPLER,
     stageFlags := VK_SHADER_STAGE_FRAGMENT_BIT }]

/-- A VkDescriptorPoolSize entry. -/
structure VkDescriptorPoolSize where
  descriptorType : Nat
  descriptorCount : Nat
deriving DecidableEq, Repr

/-- The fields of VkDescriptorPoolCreateInfo that
DescriptorManager::createDescriptorPool fills in. -/
structure DescriptorPoolCreateInfo where
  poolSizes : List VkDescriptorPoolSize
  maxSets : Nat
deriving DecidableEq, Repr

/-- DescriptorManager::createDescriptorPool (graphics.cpp, lines 876 to
891): two pool sizes of MAX_FRAMES_IN_FLIGHT descriptors each, and maxSets
set to MAX_FRAMES_IN_FLIGHT. -/
def descriptorPoolCreateInfo : DescriptorPoolCreateInfo :=
  { poolSizes :=
      [{ descriptorType := VK_DESCRIPTOR_TYPE_UNIFORM_BUFFER,
         descriptorCount := MAX_FRAMES_IN_FLIGHT },
       { descriptorType := VK_DESCRIPTOR_TYPE_COMBINED_IMAGE_SAMPLER,
         descriptorCount := MAX_FRAMES_IN_FLIGHT }],
    maxSets := MAX_FRAMES_IN_FLIGHT }

/-- Numeric code of VK_FENCE_CREATE_SIGNALED_BIT. -/
def VK_FENCE_CREATE_SIGNALED_BIT : Nat := 1

/-- The per-slot synchronization objects CommandBufferManager owns; each
bool is the signaled state of the object right after creation. -/
structure SyncObjects where
  imageAvailableSemaphores : List Bool
  renderFinishedSemaphores : List Bool
  inFlightFences : List Bool
deriving DecidableEq, Repr

/-- A semaphore built from a zero-initialized VkSemaphoreCreateInfo starts
unsignaled. -/
def createdSemaphoreSignaled : Bool := false

/-- A fence starts signaled exactly when its create-info flags contain
VK_FENCE_CREATE_SIGNALED_BIT (bit 0). -/
def fenceCreatedSignaled (flags : Nat) : Bool := flags.testBit 0

/-- CommandBufferManager::createSyncObjects (graphics.cpp, lines 152 to
185): for every slot below MAX_FRAMES_IN_FLIGHT create two semaphores from
a plain VkSemaphoreCreateInfo and one fence whose create-info flags are
VK_FENCE_CREATE_SIGNALED_BIT. -/
def createSyncObjects : SyncObjects :=
  { imageAvailableSemaphores :=
      List.replicate MAX_FRAMES_IN_FLIGHT createdSemaphoreSignaled,
    renderFinishedSemaphores :=
      List.replicate MAX_FRAMES_IN_FLIGHT createdSemaphoreSignaled,
    inFlightFences :=
      List.replicate MAX_FRAMES_IN_FLIGHT
        (fenceCreatedSignaled VK_FENCE_CREATE_SIGNALED_BIT) }

/-- The two ways a vkWaitForFences call with an effectively infinite
timeout can behave from the host's point of view. -/
inductive WaitResult where
  | completesImmediately
  | blocksUntilGpuSignal
deriving DecidableEq, Repr

/-- CommandBufferManager::waitForFences (graphics.cpp, lines 74 to 84) in a
history with no prior GPU submission: vkWaitForFences returns VK_SUCCESS
at once iff the fence is already signaled, and otherwise blocks until some
submission signals it.  An out-of-range slot reads past the vector and is
modelled as none. -/
def waitForFencesNoPriorSubmission (fences : List Bool) (frameIndex : Nat) :
    Option WaitResult :=
  (fences[frameIndex]?).map
    (fun signaled =>
      if signaled then WaitResult.completesImmediately
      else WaitResult.blocksUntilGpuSignal)

/-! ## Theorems -/

/-- A concrete SwapChain state with one live image view (handle 7) and a
live swap chain (handle 3). -/
def c1State : SwapChainState :=
  { swapChain := 3, swapChainImages := [5], swapChainImageViews := [7],
    swapChainImageFormat := 50, swapChainExtent := { width := 640, height := 480 },
    destroyedImageViews := [], destroyedSwapChains := [] }

/-- Surface support with one preferred format, FIFO present mode and a
defined current extent. -/
def c1Support : SwapChainSupportDetails :=
  { capabilities :=
      { minImageCount := 2, maxImageCount := 3,
        currentExtent := { width := 640, height := 480 },
        minImageExtent := { width := 1, height := 1 },
        maxImageExtent := { width := 4096, height := 4096 } },
    formats := [{ format := 50, colorSpace := 0 }],
    presentModes := [2] }

/-- Claim C1: the claim states that every call to SwapChain::recreateSwapChain
destroys the old image views and the old swap chain before creating the new
ones.  The code does not: the body of recreateSwapChain only calls
createSwapChain and createImageViews, never cleanupSwapChain.  Evaluated at
a state holding live view 7 and chain 3, recreation leaves both destroyed
lists empty while replacing the handles, whereas cleanupSwapChain (which
the claim and the header documentation say runs first) would have destroyed
exactly those handles. -/
theorem recreateSwapChain_skips_cleanup :
    (recreateSwapChain c1State c1Support 640 480 4 [6] [8]).toOption.map
        SwapChainState.destroyedImageViews = some [] ∧
    (recreateSwapChain c1State c1Support 640 480 4 [6] [8]).toOption.map
        SwapChainState.destroyedSwapChains = some [] ∧
    (recreateSwapChain c1State c1Support 640 480 4 [6] [8]).toOption.map
        SwapChainState.swapChainImageViews = some [8] ∧
    (cleanupSwapChain c1State).destroyedImageViews = [7] ∧
    (cleanupSwapChain c1State).destroyedSwapChains = [3] := by
  decide

/-- An allocator in which every createBuffer call fails (every buffer
handle creation throws inside AllocatorManager::createBuffer). -/
def failingAllocEnv : AllocEnv :=
  { createOk := fun _ => false, mapOk := fun _ => true, copyOk := fun _ => true }

/-- Claim C2 counterexample: with an allocator whose buffer-handle creation
always fails, the BufferManager constructor still completes normally
(returns ok) with all three create helpers having reported failure only
through their discarded bool results — the failure is not surfaced to the
caller by throwing, contradicting the claim. -/
theorem bufferManagerCtor_swallows_failure :
    (bufferManagerCtor failingAllocEnv).toOption.map
        BufferManagerState.vertexOk = some false ∧
    (bufferManagerCtor failingAllocEnv).toOption.map
        BufferManagerState.indexOk = some false ∧
    (bufferManagerCtor failingAllocEnv).toOption.map
        BufferManagerState.uniformOk = some false ∧
    (bufferManagerCtor failingAllocEnv).toOption.map
        BufferManagerState.vertexBuffer = some none := by
  decide

/-- Claim C2 (amended): a failed buffer-handle creation during vertex,
index, or uniform buffer construction is caught inside the corresponding
create helper, which logs the error and returns false; the BufferManager
constructor discards those bools, so construction always completes without
throwing, for every possible allocator outcome. -/
theorem bufferManagerCtor_never_throws (env : AllocEnv) :
    ∃ st, bufferManagerCtor env = Except.ok st :=
  ⟨_, rfl⟩

/-- Claim C3: the claim states that GraphicsPipeline::getFrameBuffer with an
empty framebuffer vector, or an out-of-range index, raises an error rather
than returning.  The code constructs the std::runtime_error temporaries
without a throw keyword, so both guards are no-ops: with an empty vector
the function falls through to the out-of-bounds access framebuffers[0] and
returns, and with index = size (which the off-by-one guard index > size
also misses) it likewise returns from an out-of-bounds access.
getFrameBuffers shares the same non-throwing guard. -/
theorem getFrameBuffer_returns_without_throwing :
    getFrameBuffer [] 0 = Except.ok none ∧
    getFrameBuffer [11] 1 = Except.ok none ∧
    getFrameBuffers [] = Except.ok [] :=
  ⟨rfl, rfl, rfl⟩

/-- When some entry of the list is preferred, the search loop of
chooseSwapSurfaceFormat finds a preferred entry of the list. -/
theorem findPreferred_some_of_exists (fs : List VkSurfaceFormatKHR)
    (h : ∃ f ∈ fs, isPreferredFormat f = true) :
    ∃ g, findPreferred fs = some g ∧ g ∈ fs ∧ isPreferredFormat g = true := by
  induction fs with
  | nil => simp at h
  | cons a t ih =>
    by_cases ha : isPreferredFormat a = true
    · exact ⟨a, by simp [findPreferred, ha], List.mem_cons_self a t, ha⟩
    · have ht : ∃ f ∈ t, isPreferredFormat f = true := by
        rcases h with ⟨f, hf, hp⟩
        rcases List.mem_cons.mp hf with rfl | hmem
        · exact absurd hp ha
        · exact ⟨f, hmem, hp⟩
      rcases ih ht with ⟨g, hg1, hg2, hg3⟩
      exact ⟨g, by simp [findPreferred, ha, hg1], List.mem_cons_of_mem a hg2, hg3⟩

/-- When no entry of the list is preferred, the search loop of
chooseSwapSurfaceFormat fails. -/
theorem findPreferred_eq_none (fs : List VkSurfaceFormatKHR)
    (h : ∀ f ∈ fs, isPreferredFormat f = false) :
    findPreferred fs = none := by
  induction fs with
  | nil => rfl
  | cons a t ih =>
    have ha := h a (List.mem_cons_self a t)
    have ht := ih (fun f hf => h f (List.mem_cons_of_mem a hf))
    simp [findPreferred, ha, ht]

/-- Claim C4: for every non-empty format list, when the list contains an
entry with format VK_FORMAT_B8G8R8A8_SRGB and color space
VK_COLOR_SPACE_SRGB_NONLINEAR_KHR, chooseSwapSurfaceFormat returns such an
entry of the list; otherwise it returns the first element of the list. -/
theorem chooseSwapSurfaceFormat_spec (fs : List VkSurfaceFormatKHR)
    (_hne : fs ≠ []) :
    ((∃ f ∈ fs, isPreferredFormat f = true) →
      ∃ f, chooseSwapSurfaceFormat fs = some f ∧ f ∈ fs ∧
        isPreferredFormat f = true) ∧
    ((∀ f ∈ fs, isPreferredFormat f = false) →
      chooseSwapSurfaceFormat fs = fs.head?) := by
  constructor
  · intro hex
    rcases findPreferred_some_of_exists fs hex with ⟨g, h1, h2, h3⟩
    exact ⟨g, by simp [chooseSwapSurfaceFormat, h1], h2, h3⟩
  · intro hall
    simp [chooseSwapSurfaceFormat, findPreferred_eq_none fs hall]

/-- Claim C4 witness: a two-element list without the preferred format falls
back to its first element. -/
theorem chooseSwapSurfaceFormat_spec_witness :
    chooseSwapSurfaceFormat
        [{ format := 44, colorSpace := 0 }, { format := 50, colorSpace := 1 }] =
      [({ format := 44, colorSpace := 0 } : VkSurfaceFormatKHR),
       { format := 50, colorSpace := 1 }].head? :=
  (chooseSwapSurfaceFormat_spec _ (by decide)).2 (by decide)

/-- Claim C5: for every list of present modes, chooseSwapPresentMode
returns VK_PRESENT_MODE_MAILBOX_KHR when the list contains that mode, and
VK_PRESENT_MODE_FIFO_KHR otherwise. -/
theorem chooseSwapPresentMode_spec (modes : List Nat) :
    (VK_PRESENT_MODE_MAILBOX_KHR ∈ modes →
      chooseSwapPresentMode modes = VK_PRESENT_MODE_MAILBOX_KHR) ∧
    (VK_PRESENT_MODE_MAILBOX_KHR ∉ modes →
      chooseSwapPresentMode modes = VK_PRESENT_MODE_FIFO_KHR) := by
  induction modes with
  | nil => exact ⟨fun h => absurd h (List.not_mem_nil _), fun _ => rfl⟩
  | cons m t ih =>
    constructor
    · intro hmem
      by_cases hm : m = VK_PRESENT_MODE_MAILBOX_KHR
      · simp [chooseSwapPresentMode, hm]
      · have hmt : VK_PRESENT_MODE_MAILBOX_KHR ∈ t := by
          rcases List.mem_cons.mp hmem with h | h
          · exact absurd h.symm hm
          · exact h
        simp [chooseSwapPresentMode, hm, ih.1 hmt]
    · intro hmem
      have hm : ¬ m = VK_PRESENT_MODE_MAILBOX_KHR := by
        intro e
        exact hmem (by rw [← e]; exact List.mem_cons_self m t)
      have ht : VK_PRESENT_MODE_MAILBOX_KHR ∉ t :=
        fun h => hmem (List.mem_cons_of_mem m h)
      simp [chooseSwapPresentMode, hm, ih.2 ht]

/-- Claim C5 witness: a list containing the mailbox mode selects it. -/
theorem chooseSwapPresentMode_spec_witness :
    chooseSwapPresentMode [0, 1, 2] = VK_PRESENT_MODE_MAILBOX_KHR :=
  (chooseSwapPresentMode_spec [0, 1, 2]).1 (by decide)

/-- std::clamp characterized piecewise: when lo is at most hi, the result
is lo below the interval, hi above it, the value itself inside it, and it
always lies in the closed interval. -/
theorem stdClamp_spec (v lo hi : Nat) (h : lo ≤ hi) :
    (v < lo → stdClamp v lo hi = lo) ∧
    (hi < v → stdClamp v lo hi = hi) ∧
    (lo ≤ v → v ≤ hi → stdClamp v lo hi = v) ∧
    lo ≤ stdClamp v lo hi ∧ stdClamp v lo hi ≤ hi := by
  unfold stdClamp
  split
  · omega
  · split <;> omega

/-- Claim C6: when the capabilities report a defined current extent (width
not equal to the UINT32_MAX sentinel), chooseSwapExtent returns the current
extent unchanged; with the sentinel, the result is the framebuffer size
cast to uint32 and clamped component-wise into the min and max image
extents, hence within bounds in each component independently. -/
theorem chooseSwapExtent_spec (caps : VkSurfaceCapabilitiesKHR)
    (fbWidth fbHeight : Int)
    (hw : caps.minImageExtent.width ≤ caps.maxImageExtent.width)
    (hh : caps.minImageExtent.height ≤ caps.maxImageExtent.height) :
    (caps.currentExtent.width ≠ UINT32_MAX →
      chooseSwapExtent caps fbWidth fbHeight = caps.currentExtent) ∧
    (caps.currentExtent.width = UINT32_MAX →
      (chooseSwapExtent caps fbWidth fbHeight).width =
        stdClamp (castIntToUInt32 fbWidth) caps.minImageExtent.width
          caps.maxImageExtent.width ∧
      (chooseSwapExtent caps fbWidth fbHeight).height =
        stdClamp (castIntToUInt32 fbHeight) caps.minImageExtent.height
          caps.maxImageExtent.height ∧
      (caps.maxImageExtent.width < castIntToUInt32 fbWidth →
        (chooseSwapExtent caps fbWidth fbHeight).width =
          caps.maxImageExtent.width) ∧
      (castIntToUInt32 fbWidth < caps.minImageExtent.width →
        (chooseSwapExtent caps fbWidth fbHeight).width =
          caps.minImageExtent.width) ∧
      (caps.maxImageExtent.height < castIntToUInt32 fbHeight →
        (chooseSwapExtent caps fbWidth fbHeight).height =
          caps.maxImageExtent.height) ∧
      (castIntToUInt32 fbHeight < caps.minImageExtent.height →
        (chooseSwapExtent caps fbWidth fbHeight).height =
          caps.minImageExtent.height) ∧
      caps.minImageExtent.width ≤ (chooseSwapExtent caps fbWidth fbHeight).width ∧
      (chooseSwapExtent caps fbWidth fbHeight).width ≤ caps.maxImageExtent.width ∧
      caps.minImageExtent.height ≤ (chooseSwapExtent caps fbWidth fbHeight).height ∧
      (chooseSwapExtent caps fbWidth fbHeight).height ≤ caps.maxImageExtent.height) := by
  constructor
  · intro hcur
    simp [chooseSwapExtent, hcur]
  · intro hcur
    rcases stdClamp_spec (castIntToUInt32 fbWidth) caps.minImageExtent.width
        caps.maxImageExtent.width hw with ⟨wlo, whi, _, wlb, wub⟩
    rcases stdClamp_spec (castIntToUInt32 fbHeight) caps.minImageExtent.height
        caps.maxImageExtent.height hh with ⟨hlo, hhi, _, hlb, hub⟩
    have hwidth : (chooseSwapExtent caps fbWidth fbHeight).width =
        stdClamp (castIntToUInt32 fbWidth) caps.minImageExtent.width
          caps.maxImageExtent.width := by
      simp [chooseSwapExtent, hcur]
    have hheight : (chooseSwapExtent caps fbWidth fbHeight).height =
        stdClamp (castIntToUInt32 fbHeight) caps.minImageExtent.height
          caps.maxImageExtent.height := by
      simp [chooseSwapExtent, hcur]
    rw [hwidth, hheight]
    exact ⟨rfl, rfl, whi, wlo, hhi, hlo, wlb, wub, hlb, hub⟩

/-- Capabilities with the sentinel current extent and image extents between
2 by 2 and 10 by 8. -/
def sentinelCaps : VkSurfaceCapabilitiesKHR :=
  { minImageCount := 2, maxImageCount := 3,
    currentExtent := { width := UINT32_MAX, height := 0 },
    minImageExtent := { width := 2, height := 2 },
    maxImageExtent := { width := 10, height := 8 } }

/-- Claim C6 witness: with the sentinel extent, a 20 by 1 framebuffer is
clamped to 10 by 2 because 20 is above the max width and 1 below the min
height. -/
theorem chooseSwapExtent_spec_witness :
    (chooseSwapExtent sentinelCaps 20 1).width = 10 ∧
    (chooseSwapExtent sentinelCaps 20 1).height = 2 := by
  have h := (chooseSwapExtent_spec sentinelCaps 20 1 (by decide) (by decide)).2
      (by decide)
  exact ⟨h.2.2.1 (by decide), h.2.2.2.2.2.1 (by decide)⟩

/-- Claim C7: whenever TextureManager::createTextureImage actually performs
an upload (the texture is not yet initialized, the image path is set, the
pixels decode and the staging memory maps), the operations it performs are
exactly, in this order: create a host-visible staging buffer sized to the
w times h times 4 pixel payload; map it, copy the pixels in, unmap it;
create the destination image device-local; transition UNDEFINED to
TRANSFER_DST, copy the staging buffer into the image, transition
TRANSFER_DST to SHADER_READ_ONLY; and destroy the staging buffer last. -/
theorem createTextureImage_staging_protocol (st : TextureState) (w h : Nat)
    (hinit : st.textureImage = none ∨ st.textureImageMemory = none)
    (hpath : st.imagePath ≠ "") :
    createTextureImage st (some (w, h)) true =
      Except.ok
        ({ st with textureImage := some 1, textureImageMemory := some 1 },
         [TexEvent.createStagingBuffer (w * h * 4) true,
          TexEvent.mapMemory,
          TexEvent.memcpyPixels (w * h * 4),
          TexEvent.unmapMemory,
          TexEvent.freePixels,
          TexEvent.createImage w h true,
          TexEvent.transition VK_IMAGE_LAYOUT_UNDEFINED
            VK_IMAGE_LAYOUT_TRANSFER_DST_OPTIMAL,
          TexEvent.copyBufferToImage w h,
          TexEvent.transition VK_IMAGE_LAYOUT_TRANSFER_DST_OPTIMAL
            VK_IMAGE_LAYOUT_SHADER_READ_ONLY_OPTIMAL,
          TexEvent.destroyStagingBuffer]) := by
  have hguard : (st.textureImage.isSome && st.textureImageMemory.isSome) = false := by
    rcases hinit with h1 | h1 <;> simp [h1]
  simp [createTextureImage, hguard, hpath, transitionImageLayout,
        VK_IMAGE_LAYOUT_UNDEFINED, VK_IMAGE_LAYOUT_TRANSFER_DST_OPTIMAL,
        VK_IMAGE_LAYOUT_SHADER_READ_ONLY_OPTIMAL]

/-- Claim C7 witness: a fresh TextureManager uploading a 2 by 3 texture
performs the staging protocol with a 24-byte staging buffer. -/
theorem createTextureImage_staging_protocol_witness :
    createTextureImage
        { textureImage := none, textureImageMemory := none,
          imagePath := "../../data/texture.jpg" } (some (2, 3)) true =
      Except.ok
        ({ textureImage := some 1, textureImageMemory := some 1,
           imagePath := "../../data/texture.jpg" },
         [TexEvent.createStagingBuffer 24 true,
          TexEvent.mapMemory,
          TexEvent.memcpyPixels 24,
          TexEvent.unmapMemory,
          TexEvent.freePixels,
          TexEvent.createImage 2 3 true,
          TexEvent.transition VK_IMAGE_LAYOUT_UNDEFINED
            VK_IMAGE_LAYOUT_TRANSFER_DST_OPTIMAL,
          TexEvent.copyBufferToImage 2 3,
          TexEvent.transition VK_IMAGE_LAYOUT_TRANSFER_DST_OPTIMAL
            VK_IMAGE_LAYOUT_SHADER_READ_ONLY_OPTIMAL,
          TexEvent.destroyStagingBuffer]) :=
  createTextureImage_staging_protocol
    { textureImage := none, textureImageMemory := none,
      imagePath := "../../data/texture.jpg" } 2 3 (Or.inl rfl) (by decide)

/-- Claim C8: updateUniformBuffer with a slot below MAX_FRAMES_IN_FLIGHT
whose mapped pointer is non-null copies exactly the ubo value into that
slot's mapped region and leaves every other slot's region unchanged; with
a slot not below MAX_FRAMES_IN_FLIGHT it throws the out-of-range error and
returns no updated regions at all. -/
theorem updateUniformBuffer_spec (mapped : List (Option UniformBufferObject))
    (slot : Nat) (ubo : UniformBufferObject) :
    (∀ old, slot < MAX_FRAMES_IN_FLIGHT → mapped[slot]? = some (some old) →
      updateUniformBuffer mapped slot ubo =
        Except.ok (mapped.set slot (some ubo)) ∧
      (mapped.set slot (some ubo))[slot]? = some (some ubo) ∧
      ∀ j, j ≠ slot → (mapped.set slot (some ubo))[j]? = mapped[j]?) ∧
    (MAX_FRAMES_IN_FLIGHT ≤ slot →
      updateUniformBuffer mapped slot ubo =
        Except.error "Frame index out of bounds.") := by
  constructor
  · intro old hs hm
    have hnot : ¬ MAX_FRAMES_IN_FLIGHT ≤ slot := by omega
    have hlen : slot < mapped.length := by
      by_contra hc
      push_neg at hc
      rw [List.getElem?_eq_none hc] at hm
      cases hm
    refine ⟨?_, ?_, ?_⟩
    · simp [updateUniformBuffer, hnot, hm]
    · rw [List.getElem?_set_eq_of_lt (some ubo) hlen]
    · intro j hj
      rw [List.getElem?_set_ne (fun e => hj e.symm)]
  · intro hge
    simp [updateUniformBuffer, hge]

/-- Claim C8 witness: updating slot 1 of a fully mapped two-slot vector
stores the new value there, leaves slot 0 untouched, and slot 2 is
rejected as out of range. -/
theorem updateUniformBuffer_spec_witness :
    updateUniformBuffer [some ⟨10⟩, some ⟨11⟩] 1 ⟨42⟩ =
      Except.ok [some ⟨10⟩, some ⟨42⟩] ∧
    updateUniformBuffer [some ⟨10⟩, some ⟨11⟩] 2 ⟨42⟩ =
      Except.error "Frame index out of bounds." := by
  refine ⟨?_, ?_⟩
  · exact ((updateUniformBuffer_spec [some ⟨10⟩, some ⟨11⟩] 1 ⟨42⟩).1
      ⟨11⟩ (by decide) rfl).1
  · exact (updateUniformBuffer_spec [some ⟨10⟩, some ⟨11⟩] 2 ⟨42⟩).2 (by decide)

/-- Claim C9: the descriptor-set layout has exactly two bindings, binding 0
a single uniform-buffer descriptor visible to the vertex stage and binding
1 a single combined image-sampler descriptor visible to the fragment
stage; the descriptor pool is created with maxSets equal to
MAX_FRAMES_IN_FLIGHT and exactly MAX_FRAMES_IN_FLIGHT descriptors of each
of those two types, so the pool is sized for exactly the per-frame sets
fixed at startup. -/
theorem descriptor_layout_and_pool_spec :
    descriptorSetLayoutBindings.length = 2 ∧
    (descriptorSetLayoutBindings.map fun b =>
      (b.binding, b.descriptorType, b.stageFlags, b.descriptorCount)) =
      [(0, VK_DESCRIPTOR_TYPE_UNIFORM_BUFFER, VK_SHADER_STAGE_VERTEX_BIT, 1),
       (1, VK_DESCRIPTOR_TYPE_COMBINED_IMAGE_SAMPLER,
        VK_SHADER_STAGE_FRAGMENT_BIT, 1)] ∧
    descriptorPoolCreateInfo.maxSets = MAX_FRAMES_IN_FLIGHT ∧
    (descriptorPoolCreateInfo.poolSizes.map fun p =>
      (p.descriptorType, p.descriptorCount)) =
      [(VK_DESCRIPTOR_TYPE_UNIFORM_BUFFER, MAX_FRAMES_IN_FLIGHT),
       (VK_DESCRIPTOR_TYPE_COMBINED_IMAGE_SAMPLER, MAX_FRAMES_IN_FLIGHT)] := by
  decide

/-- Claim C10: after CommandBufferManager construction every frame slot's
in-flight fence was created in the signaled state and both of the slot's
semaphores unsignaled, so the first waitForFences on any slot, with no GPU
submission having happened, completes immediately. -/
theorem syncObjects_first_wait_immediate (i : Nat)
    (hi : i < MAX_FRAMES_IN_FLIGHT) :
    waitForFencesNoPriorSubmission createSyncObjects.inFlightFences i =
      some WaitResult.completesImmediately ∧
    createSyncObjects.imageAvailableSemaphores[i]? = some false ∧
    createSyncObjects.renderFinishedSemaphores[i]? = some false := by
  have h2 : MAX_FRAMES_IN_FLIGHT = 2 := rfl
  have hcase : i = 0 ∨ i = 1 := by omega
  rcases hcase with rfl | rfl <;> exact ⟨rfl, rfl, rfl⟩

/-- Claim C10 witness: the first wait on slot 0 completes immediately. -/
theorem syncObjects_first_wait_immediate_witness :
    waitForFencesNoPriorSubmission createSyncObjects.inFlightFences 0 =
      some WaitResult.completesImmediately ∧
    createSyncObjects.imageAvailableSemaphores[0]? = some false ∧
    createSyncObjects.renderFinishedSemaphores[0]? = some false :=
  syncObjects_first_wait_immediate 0 (by decide)

end VulkanTextureDepth
